import Mathlib

/-!
Shallow embedding of the plotting scripts of the epidemic-percolation
repository (`plot_threshold_analysis.py`, `plot_improved_visualization.py`,
`plot_phase_diagrams.py`), together with proofs of the behavioural
properties of their numeric core.

Modelling conventions:
* table values are rationals (`ℚ`);
* the external library routine `scipy.ndimage.gaussian_filter1d(·, sigma=1)`
  is not part of the repository, so it appears as an abstract parameter
  `gf : List ℚ → List ℚ`, with its length-preservation assumed where a
  claim needs it. Two concrete instances are used: `smooth3`, a simple
  length-preserving 3-tap filter that only witnesses satisfiability of the
  `gf`-universal theorems, and `gauss1`, a rational-weight model of the
  actual σ = 1, radius-4, reflect-mode kernel, used where the kernel's
  specifics are load-bearing (the claim C3 counterexample);
* a Python function that can swallow an `IndexError` returns `Option`;
  a scan that can raise an uncaught exception returns `Except Unit`.
-/

namespace EpidemicPercolation

/-- A row of the `phase_diagram_results` table: the three parameter columns
and the four metric columns the scripts read. -/
structure Row where
  temptation : ℚ
  defectorRatio : ℚ
  density : ℚ
  defectorPercolationProb : ℚ
  geometricPercolationProb : ℚ
  avgLargestClusterFrac : ℚ
  avgCompliance : ℚ
  deriving DecidableEq, Repr

/-- Model of `np.where(p(arr))[0][0]`: the least index of `l` at which the
boolean predicate `p` holds, `none` when `p` holds nowhere (numpy raises
`IndexError` on the empty index array; callers catch it or test emptiness). -/
def npWhereFirst (p : ℚ → Bool) : List ℚ → Option Nat
  | [] => none
  | v :: vs => if p v then some 0 else (npWhereFirst p vs).map (· + 1)

/-- Model of `find_threshold(x, y, threshold)` from
`plot_threshold_analysis.py` lines 15-23: smooth `y` with
`gaussian_filter1d(y, sigma=1)` (the parameter `gf`), take the first index
whose smoothed value is `≥ threshold`, and return `x` at that index; the
`except IndexError` clause turns both an empty index set and an
out-of-bounds access into `None`. -/
def find_threshold (gf : List ℚ → List ℚ) (x y : List ℚ) (threshold : ℚ) : Option ℚ :=
  match npWhereFirst (fun v => decide (threshold ≤ v)) (gf y) with
  | some idx => x[idx]?
  | none => none

/-- Index clamped to the valid range, matching the radius-1 boundary
behaviour of `gaussian_filter1d`'s reflect mode. -/
def reflectGet (y : List ℚ) (i : Int) : ℚ :=
  y.getD (Int.toNat (min (max i 0) ((y.length : Int) - 1))) 0

/-- A simple concrete length-preserving smoothing filter: correlation with
the 3-tap kernel (1/4, 1/2, 1/4) under edge-clamped boundary handling. It is
NOT the σ = 1 kernel of `gaussian_filter1d` (see `gauss1` for that); it only
instantiates the abstract filter parameter `gf` in witnesses of theorems
that hold for every length-preserving filter. -/
def smooth3 (y : List ℚ) : List ℚ :=
  (List.range y.length).map fun i =>
    (reflectGet y (Int.ofNat i - 1) + 2 * reflectGet y (Int.ofNat i) +
      reflectGet y (Int.ofNat i + 1)) * mkRat 1 4

theorem smooth3_length (y : List ℚ) : (smooth3 y).length = y.length := by
  simp only [smooth3, List.length_map, List.length_range]

/-- Reflected index for `gaussian_filter1d`'s default `'reflect'` boundary
mode, `(d c b a | a b c d | d c b a)`. A single reflection suffices whenever
the list is longer than the filter radius, which holds for every concrete
table in this file. -/
def reflectIdx (n i : Int) : Int :=
  if i < 0 then -i - 1 else if n ≤ i then 2 * n - i - 1 else i

def reflGet (y : List ℚ) (i : Int) : ℚ :=
  y.getD (reflectIdx (Int.ofNat y.length) i).toNat 0

/-- Numerators of the σ = 1 Gaussian kernel of `gaussian_filter1d` with the
default `truncate = 4.0`, i.e. radius `int(4.0 * 1 + 0.5) = 4`: the weights
are `exp(-k²/2)` for offsets `k = -4 … 4` normalized by their sum; here each
weight is `gauss1_nums[k+4] / 999998`, the numerators being the float values
rounded at the sixth decimal place. The rounding error, under `10⁻⁵` per
output sample, is far smaller than every margin the concrete tables leave
around the 0.5 threshold, so first-crossing indices agree with the float
computation. -/
def gauss1_nums : List ℚ :=
  [134, 4432, 53991, 241971, 398942, 241971, 53991, 4432, 134]

/-- Rational model of `scipy.ndimage.gaussian_filter1d(y, sigma=1)`:
correlation with the radius-4 kernel `gauss1_nums / 999998` under the
`'reflect'` boundary mode. -/
def gauss1 (y : List ℚ) : List ℚ :=
  (List.range y.length).map fun i =>
    ((List.range 9).foldl
      (fun acc k =>
        acc + gauss1_nums.getD k 0 * reflGet y (Int.ofNat i + Int.ofNat k - 4))
      0) * mkRat 1 999998

/-! ### Lemmas about the index scan -/

theorem npWhereFirst_nil (p : ℚ → Bool) : npWhereFirst p [] = none := rfl

theorem npWhereFirst_cons (p : ℚ → Bool) (a : ℚ) (as : List ℚ) :
    npWhereFirst p (a :: as) =
      if p a then some 0 else (npWhereFirst p as).map (· + 1) := by
  cases hpa : p a <;> cases hrec : npWhereFirst p as <;>
    simp [npWhereFirst, hpa, hrec]

theorem npWhereFirst_eq_none_iff (p : ℚ → Bool) (l : List ℚ) :
    npWhereFirst p l = none ↔ ∀ v ∈ l, p v = false := by
  induction l with
  | nil => simp [npWhereFirst_nil]
  | cons a as ih =>
    rw [npWhereFirst_cons]
    cases ha : p a with
    | true =>
      rw [if_pos rfl]
      simp [ha]
    | false =>
      rw [if_neg Bool.false_ne_true]
      simp [ha, Option.map_eq_none', ih]

theorem npWhereFirst_lt_length (p : ℚ → Bool) (l : List ℚ) (i : Nat)
    (h : npWhereFirst p l = some i) : i < l.length := by
  induction l generalizing i with
  | nil => simp [npWhereFirst_nil] at h
  | cons a as ih =>
    rw [npWhereFirst_cons] at h
    cases ha : p a with
    | true =>
      rw [ha, if_pos rfl] at h
      injection h with h
      subst h
      simp
    | false =>
      rw [ha, if_neg Bool.false_ne_true, Option.map_eq_some'] at h
      obtain ⟨j, hj, rfl⟩ := h
      have := ih j hj
      simp only [List.length_cons]
      omega

theorem npWhereFirst_get (p : ℚ → Bool) (l : List ℚ) (i : Nat)
    (h : npWhereFirst p l = some i) : ∃ v, l[i]? = some v ∧ p v = true := by
  induction l generalizing i with
  | nil => simp [npWhereFirst_nil] at h
  | cons a as ih =>
    rw [npWhereFirst_cons] at h
    cases ha : p a with
    | true =>
      rw [ha, if_pos rfl] at h
      injection h with h
      subst h
      exact ⟨a, by simp, ha⟩
    | false =>
      rw [ha, if_neg Bool.false_ne_true, Option.map_eq_some'] at h
      obtain ⟨j, hj, rfl⟩ := h
      obtain ⟨v, hv, hpv⟩ := ih j hj
      exact ⟨v, by simpa using hv, hpv⟩

theorem npWhereFirst_min (p : ℚ → Bool) (l : List ℚ) (i : Nat)
    (h : npWhereFirst p l = some i) :
    ∀ j < i, ∀ w, l[j]? = some w → p w = false := by
  induction l generalizing i with
  | nil => simp [npWhereFirst_nil] at h
  | cons a as ih =>
    rw [npWhereFirst_cons] at h
    cases ha : p a with
    | true =>
      rw [ha, if_pos rfl] at h
      injection h with h
      subst h
      intro j hj
      omega
    | false =>
      rw [ha, if_neg Bool.false_ne_true, Option.map_eq_some'] at h
      obtain ⟨k, hk, rfl⟩ := h
      intro j hj w hw
      cases j with
      | zero =>
        simp only [List.getElem?_cons_zero, Option.some.injEq] at hw
        subst hw
        exact ha
      | succ n =>
        simp only [List.getElem?_cons_succ] at hw
        exact ih k hk n (by omega) w hw

theorem npWhereFirst_isSome (p : ℚ → Bool) (l : List ℚ) (v : ℚ)
    (hv : v ∈ l) (hpv : p v = true) : ∃ i, npWhereFirst p l = some i := by
  cases h : npWhereFirst p l with
  | some i => exact ⟨i, rfl⟩
  | none =>
    rw [npWhereFirst_eq_none_iff] at h
    rw [h v hv] at hpv
    cases hpv

theorem npWhereFirst_mono (p q : ℚ → Bool) (l : List ℚ)
    (hpq : ∀ v, q v = true → p v = true) (i : Nat)
    (h : npWhereFirst q l = some i) :
    ∃ j ≤ i, npWhereFirst p l = some j := by
  induction l generalizing i with
  | nil => simp [npWhereFirst_nil] at h
  | cons a as ih =>
    rw [npWhereFirst_cons] at h
    cases hpa : p a with
    | true =>
      refine ⟨0, Nat.zero_le i, ?_⟩
      rw [npWhereFirst_cons, hpa, if_pos rfl]
    | false =>
      have hqa : q a = false := by
        cases hq : q a with
        | false => rfl
        | true => rw [hpq a hq] at hpa; cases hpa
      rw [hqa, if_neg Bool.false_ne_true, Option.map_eq_some'] at h
      obtain ⟨k, hk, rfl⟩ := h
      obtain ⟨j, hji, hj⟩ := ih k hk
      refine ⟨j + 1, by omega, ?_⟩
      rw [npWhereFirst_cons, hpa, if_neg Bool.false_ne_true, hj]
      rfl

theorem find_threshold_of_scan_some (gf : List ℚ → List ℚ) (x y : List ℚ) (t : ℚ) (i : Nat)
    (h : npWhereFirst (fun v => decide (t ≤ v)) (gf y) = some i) :
    find_threshold gf x y t = x[i]? := by
  unfold find_threshold
  rw [h]

theorem find_threshold_of_scan_none (gf : List ℚ → List ℚ) (x y : List ℚ) (t : ℚ)
    (h : npWhereFirst (fun v => decide (t ≤ v)) (gf y) = none) :
    find_threshold gf x y t = none := by
  unfold find_threshold
  rw [h]

/-- Claim C1: for every pair of equal-length arrays `x` and `y` with `x` sorted
ascending, if some element of the smoothed `y` is at least the threshold, then
`find_threshold` returns `x[i]` where `i` is the minimal index at which the
smoothed value is at least the threshold. -/
theorem find_threshold_first_crossing (gf : List ℚ → List ℚ) (x y : List ℚ) (t : ℚ)
    (hlen : x.length = y.length) (hgf : (gf y).length = y.length)
    (hsort : List.Sorted (· ≤ ·) x)
    (hex : ∃ v ∈ gf y, t ≤ v) :
    ∃ i, i < x.length ∧ find_threshold gf x y t = x[i]? ∧
      (∃ v, (gf y)[i]? = some v ∧ t ≤ v) ∧
      (∀ j < i, ∀ w, (gf y)[j]? = some w → w < t) := by
  obtain ⟨v, hv, htv⟩ := hex
  obtain ⟨i, hi⟩ :=
    npWhereFirst_isSome (fun v => decide (t ≤ v)) (gf y) v hv (by simpa using htv)
  have hlt : i < (gf y).length := npWhereFirst_lt_length _ _ _ hi
  have hix : i < x.length := by omega
  refine ⟨i, hix, find_threshold_of_scan_some gf x y t i hi, ?_, ?_⟩
  · obtain ⟨w, hw, hpw⟩ := npWhereFirst_get _ _ _ hi
    exact ⟨w, hw, by simpa using hpw⟩
  · intro j hj w hw
    have hmin := npWhereFirst_min _ _ _ hi j hj w hw
    exact not_le.mp (by simpa using hmin)

/-- Claim C1 witness: a concrete instance of `find_threshold_first_crossing`. -/
theorem find_threshold_first_crossing_witness :
    ∃ i, i < ([0, 1, 2] : List ℚ).length ∧
      find_threshold smooth3 [0, 1, 2] [0, 1, 1] (mkRat 1 2) = ([0, 1, 2] : List ℚ)[i]? ∧
      (∃ v, (smooth3 [0, 1, 1])[i]? = some v ∧ mkRat 1 2 ≤ v) ∧
      (∀ j < i, ∀ w, (smooth3 [0, 1, 1])[j]? = some w → w < mkRat 1 2) :=
  find_threshold_first_crossing smooth3 [0, 1, 2] [0, 1, 1] (mkRat 1 2)
    (by with_unfolding_all decide) (by with_unfolding_all decide)
    (by with_unfolding_all decide) (by with_unfolding_all decide)

/-- Claim C2: for equal-length arrays, `find_threshold` returns `none` exactly
when every element of the smoothed `y` is strictly below the threshold; the
function itself never propagates an error (it is `Option`-valued). -/
theorem find_threshold_none_iff (gf : List ℚ → List ℚ) (x y : List ℚ) (t : ℚ)
    (hlen : x.length = y.length) (hgf : (gf y).length = y.length) :
    find_threshold gf x y t = none ↔ ∀ v ∈ gf y, v < t := by
  cases hw : npWhereFirst (fun v => decide (t ≤ v)) (gf y) with
  | none =>
    rw [find_threshold_of_scan_none gf x y t hw]
    rw [npWhereFirst_eq_none_iff] at hw
    exact ⟨fun _ v hv => not_le.mp (by simpa using hw v hv), fun _ => rfl⟩
  | some i =>
    rw [find_threshold_of_scan_some gf x y t i hw]
    have hlt : i < (gf y).length := npWhereFirst_lt_length _ _ _ hw
    have hix : i < x.length := by omega
    obtain ⟨v, hv, hpv⟩ := npWhereFirst_get _ _ _ hw
    have htv : t ≤ v := by simpa using hpv
    constructor
    · intro hnone
      rw [List.getElem?_eq_none_iff] at hnone
      omega
    · intro hall
      exact absurd htv (not_le.mpr (hall v (List.getElem?_mem hv)))

/-- Claim C2 witness: a concrete instance of `find_threshold_none_iff`. -/
theorem find_threshold_none_iff_witness :
    find_threshold smooth3 [0, 1] [0, 0] (mkRat 1 2) = none ↔
      ∀ v ∈ smooth3 [0, 0], v < mkRat 1 2 :=
  find_threshold_none_iff smooth3 [0, 1] [0, 0] (mkRat 1 2)
    (by with_unfolding_all decide) (by with_unfolding_all decide)

/-- Claim C8: `find_threshold` is total for arbitrary (also mismatched-length)
inputs: every non-`none` result is an element of `x`, and when the first
crossing index falls outside `x` the second `IndexError` is also swallowed
and the result is `none`. -/
theorem find_threshold_total_safe (gf : List ℚ → List ℚ) (x y : List ℚ) (t : ℚ) :
    (∀ v, find_threshold gf x y t = some v → v ∈ x) ∧
    (∀ i, npWhereFirst (fun v => decide (t ≤ v)) (gf y) = some i → x.length ≤ i →
      find_threshold gf x y t = none) := by
  constructor
  · intro v hv
    cases hw : npWhereFirst (fun w => decide (t ≤ w)) (gf y) with
    | none =>
      rw [find_threshold_of_scan_none gf x y t hw] at hv
      cases hv
    | some i =>
      rw [find_threshold_of_scan_some gf x y t i hw] at hv
      exact List.getElem?_mem hv
  · intro i hw hle
    rw [find_threshold_of_scan_some gf x y t i hw]
    exact List.getElem?_eq_none hle

/-- Claim C8 witness: a concrete non-`none` result is an element of `x`, and a
concrete shorter-`x` instance returns `none` instead of failing. -/
theorem find_threshold_total_safe_witness :
    (7 : ℚ) ∈ ([7] : List ℚ) ∧ find_threshold smooth3 [] [2] (mkRat 1 2) = none :=
  ⟨(find_threshold_total_safe smooth3 [7] [0, 2, 2] (mkRat 1 2)).1 7
      (by with_unfolding_all decide),
   (find_threshold_total_safe smooth3 [] [2] (mkRat 1 2)).2 0
      (by with_unfolding_all decide) (by with_unfolding_all decide)⟩

/-- Claim C9: for fixed equal-length arrays with `x` sorted ascending,
`find_threshold` is monotone in the threshold: lowering the threshold keeps
the result defined and can only move it left. -/
theorem find_threshold_mono_threshold (gf : List ℚ → List ℚ) (x y : List ℚ) (t1 t2 : ℚ)
    (hsort : List.Sorted (· ≤ ·) x) (hlen : x.length = y.length) (ht : t1 ≤ t2) (v2 : ℚ)
    (h2 : find_threshold gf x y t2 = some v2) :
    ∃ v1, find_threshold gf x y t1 = some v1 ∧ v1 ≤ v2 := by
  cases hw2 : npWhereFirst (fun v => decide (t2 ≤ v)) (gf y) with
  | none =>
    rw [find_threshold_of_scan_none gf x y t2 hw2] at h2
    cases h2
  | some i2 =>
    rw [find_threshold_of_scan_some gf x y t2 i2 hw2] at h2
    rw [List.getElem?_eq_some_iff] at h2
    obtain ⟨hi2, hv2⟩ := h2
    obtain ⟨i1, hle, hw1⟩ :=
      npWhereFirst_mono (fun v => decide (t1 ≤ v)) (fun v => decide (t2 ≤ v)) (gf y)
        (fun v hv => by
          simp only [decide_eq_true_eq] at hv ⊢
          exact le_trans ht hv) i2 hw2
    have hi1 : i1 < x.length := lt_of_le_of_lt hle hi2
    refine ⟨x[i1], ?_, ?_⟩
    · rw [find_threshold_of_scan_some gf x y t1 i1 hw1]
      exact List.getElem?_eq_getElem hi1
    · subst hv2
      have hrel := List.Sorted.rel_get_of_le hsort
        (a := ⟨i1, hi1⟩) (b := ⟨i2, hi2⟩) (Fin.mk_le_mk.mpr hle)
      simpa using hrel

/-- Claim C9 witness: a concrete instance of `find_threshold_mono_threshold`. -/
theorem find_threshold_mono_threshold_witness :
    ∃ v1, find_threshold smooth3 [0, 1, 2] [0, 1, 1] (mkRat 1 4) = some v1 ∧ v1 ≤ 1 :=
  find_threshold_mono_threshold smooth3 [0, 1, 2] [0, 1, 1] (mkRat 1 4) (mkRat 1 2)
    (by with_unfolding_all decide) (by with_unfolding_all decide)
    (by with_unfolding_all decide) 1 (by with_unfolding_all decide)

/-- Model of the inline threshold scan of `plot_subplots_by_groups`
(`plot_improved_visualization.py` lines 41-44): `thresh_idx =
np.where(y_smooth >= 0.5)[0]`, and when it is nonempty a vertical line is
drawn at `x[thresh_idx[0]]`. Unlike `find_threshold`, that indexing is not
guarded by `try/except`, so an out-of-range first index would be an uncaught
`IndexError`, modelled as `Except.error ()`; `Except.ok none` means no
vertical line is drawn. -/
def subplots_threshold_scan (gf : List ℚ → List ℚ) (x y : List ℚ) :
    Except Unit (Option ℚ) :=
  match npWhereFirst (fun v => decide (mkRat 1 2 ≤ v)) (gf y) with
  | none => Except.ok none
  | some i =>
    match x[i]? with
    | some v => Except.ok (some v)
    | none => Except.error ()

/-- Claim C4: on equal-length arrays the inline scan of
`plot_subplots_by_groups` draws its vertical line exactly when
`find_threshold(x, y, 0.5)` is non-`None`, at the same position: the two
copies of the scan are equivalent (and the unguarded indexing cannot fail). -/
theorem subplots_scan_eq_find_threshold (gf : List ℚ → List ℚ) (x y : List ℚ)
    (hlen : x.length = y.length) (hgf : (gf y).length = y.length) :
    subplots_threshold_scan gf x y = Except.ok (find_threshold gf x y (mkRat 1 2)) := by
  unfold subplots_threshold_scan
  cases hw : npWhereFirst (fun v => decide (mkRat 1 2 ≤ v)) (gf y) with
  | none => rw [find_threshold_of_scan_none gf x y _ hw]
  | some i =>
    have hlt : i < (gf y).length := npWhereFirst_lt_length _ _ _ hw
    have hix : i < x.length := by omega
    rw [find_threshold_of_scan_some gf x y _ i hw]
    change (match x[i]? with
      | some v => Except.ok (some v)
      | none => Except.error ()) = Except.ok x[i]?
    cases hx : x[i]? with
    | none =>
      rw [List.getElem?_eq_none_iff] at hx
      omega
    | some v => rfl

/-- Claim C4 witness: a concrete instance of `subplots_scan_eq_find_threshold`. -/
theorem subplots_scan_eq_find_threshold_witness :
    subplots_threshold_scan smooth3 [0, 1, 2] [0, 1, 1] =
      Except.ok (find_threshold smooth3 [0, 1, 2] [0, 1, 1] (mkRat 1 2)) :=
  subplots_scan_eq_find_threshold smooth3 [0, 1, 2] [0, 1, 1]
    (by with_unfolding_all decide) (by with_unfolding_all decide)

/-! ### `plot_threshold_curves` (`plot_threshold_analysis.py` lines 25-64) -/

/-- Rows of one defector-ratio curve: the source filters
`df[(df['defectorRatio'] == ratio) & (df['temptation'] == 1.7)]`. -/
def curve_rows (df : List Row) (ratio : ℚ) : List Row :=
  df.filter fun r => decide (r.defectorRatio = ratio) && decide (r.temptation = mkRat 17 10)

/-- The `x = data['density'].values` of one curve. -/
def curve_x (df : List Row) (ratio : ℚ) : List ℚ :=
  (curve_rows df ratio).map (·.density)

/-- The `y = data[metric].values` of one curve; `f` selects the metric column. -/
def curve_y (f : Row → ℚ) (df : List Row) (ratio : ℚ) : List ℚ :=
  (curve_rows df ratio).map f

/-- Model of `sorted(df['defectorRatio'].unique())`. -/
def defector_ratios (df : List Row) : List ℚ :=
  ((df.map (·.defectorRatio)).dedup).insertionSort (· ≤ ·)

/-- Model of the `thresholds` list built by `plot_threshold_curves`: for each
ratio the curve is smoothed once for plotting (`y_smooth =
gaussian_filter1d(y, sigma=1)`, line 42) and `find_threshold` is then called
on the already smoothed `y_smooth` (line 47) — `find_threshold` smooths its
input again — and `(ratio, thresh)` is appended only when `thresh is not
None`. -/
def plot_threshold_curves_thresholds (gf : List ℚ → List ℚ) (f : Row → ℚ)
    (df : List Row) (threshold : ℚ) : List (ℚ × Option ℚ) :=
  (defector_ratios df).filterMap fun ratio =>
    (find_threshold gf (curve_x df ratio) (gf (curve_y f df ratio)) threshold).map
      fun thresh => (ratio, some thresh)

/-- A small one-curve table at temptation 1.7, densities 0..5, metric values
(0, 1, 0, 1, 1, 1); used to instantiate universally quantified theorems on
concrete data. -/
def dfC3 : List Row :=
  [⟨mkRat 17 10, mkRat 1 2, 0, 0, 0, 0, 0⟩,
   ⟨mkRat 17 10, mkRat 1 2, 1, 1, 1, 1, 1⟩,
   ⟨mkRat 17 10, mkRat 1 2, 2, 0, 0, 0, 0⟩,
   ⟨mkRat 17 10, mkRat 1 2, 3, 1, 1, 1, 1⟩,
   ⟨mkRat 17 10, mkRat 1 2, 4, 1, 1, 1, 1⟩,
   ⟨mkRat 17 10, mkRat 1 2, 5, 1, 1, 1, 1⟩]

/-- The concrete table refuting claim C3: one defector-ratio curve at
temptation 1.7, densities 0..8, metric values (0, 0, 0.9, 0.9, 0, 0, 0, 1, 1):
a two-sample bump that survives one `sigma = 1` smoothing pass but not two,
followed by a final rise. Under the σ = 1 radius-4 Gaussian the
once-smoothed values are ≈ (0.057, 0.267, 0.577, 0.577, 0.271, 0.111, 0.305,
0.700, 0.937), first `≥ 0.5` at index 2, while the twice-smoothed values are
≈ (0.152, 0.296, 0.453, 0.457, 0.327, 0.259, 0.390, 0.700, 0.826), first
`≥ 0.5` at index 7; every value up to the crossing is at least 0.04 away
from 0.5, so the indices are robust to the kernel-weight rounding. -/
def dfC3x : List Row :=
  [⟨mkRat 17 10, mkRat 1 2, 0, 0, 0, 0, 0⟩,
   ⟨mkRat 17 10, mkRat 1 2, 1, 0, 0, 0, 0⟩,
   ⟨mkRat 17 10, mkRat 1 2, 2, mkRat 9 10, mkRat 9 10, mkRat 9 10, mkRat 9 10⟩,
   ⟨mkRat 17 10, mkRat 1 2, 3, mkRat 9 10, mkRat 9 10, mkRat 9 10, mkRat 9 10⟩,
   ⟨mkRat 17 10, mkRat 1 2, 4, 0, 0, 0, 0⟩,
   ⟨mkRat 17 10, mkRat 1 2, 5, 0, 0, 0, 0⟩,
   ⟨mkRat 17 10, mkRat 1 2, 6, 0, 0, 0, 0⟩,
   ⟨mkRat 17 10, mkRat 1 2, 7, 1, 1, 1, 1⟩,
   ⟨mkRat 17 10, mkRat 1 2, 8, 1, 1, 1, 1⟩]

/-- Claim C3 counterexample: in `plot_threshold_curves` the recorded threshold
comes from smoothing twice (the curve's `y_smooth` of line 42 is smoothed
again inside `find_threshold` at line 47), so on `dfC3x` the recorded density
is 7 although the scan after a single application of the σ = 1 Gaussian —
what `find_threshold` computes from the raw `x` and `y` — gives 2. -/
theorem plot_threshold_curves_double_smooth_cex :
    plot_threshold_curves_thresholds gauss1 (·.defectorPercolationProb) dfC3x (mkRat 1 2)
      = [(mkRat 1 2, some 7)] ∧
    find_threshold gauss1 (curve_x dfC3x (mkRat 1 2))
      (curve_y (·.defectorPercolationProb) dfC3x (mkRat 1 2)) (mkRat 1 2) = some 2 ∧
    some (7 : ℚ) ≠ some (2 : ℚ) := by
  with_unfolding_all decide

/-- Claim C3 (amended): every pair recorded by `plot_threshold_curves` holds
the value `find_threshold` computes from the curve's raw `x` and its
once-smoothed `y` — that is, the scan runs after two applications of the
Gaussian smoothing, not one. -/
theorem plot_threshold_curves_thresholds_spec (gf : List ℚ → List ℚ) (f : Row → ℚ)
    (df : List Row) (t : ℚ) (ratio : ℚ) (v : Option ℚ)
    (hmem : (ratio, v) ∈ plot_threshold_curves_thresholds gf f df t) :
    v = find_threshold gf (curve_x df ratio) (gf (curve_y f df ratio)) t ∧ v ≠ none := by
  unfold plot_threshold_curves_thresholds at hmem
  rw [List.mem_filterMap] at hmem
  obtain ⟨r, hr, hmap⟩ := hmem
  rw [Option.map_eq_some'] at hmap
  obtain ⟨w, hw, heq⟩ := hmap
  obtain ⟨h1, h2⟩ := Prod.ext_iff.mp heq
  subst h1
  subst h2
  exact ⟨hw.symm, by simp⟩

/-- Claim C3 (amended) witness: a concrete instance of
`plot_threshold_curves_thresholds_spec`. -/
theorem plot_threshold_curves_thresholds_spec_witness :
    some (7 : ℚ) = find_threshold gauss1 (curve_x dfC3x (mkRat 1 2))
      (gauss1 (curve_y (·.defectorPercolationProb) dfC3x (mkRat 1 2))) (mkRat 1 2) ∧
    some (7 : ℚ) ≠ none :=
  plot_threshold_curves_thresholds_spec gauss1 (·.defectorPercolationProb) dfC3x
    (mkRat 1 2) (mkRat 1 2) (some 7) (by with_unfolding_all decide)

/-- Strictly ascending distinct ratios: `sorted(unique(...))` of the table. -/
theorem defector_ratios_sorted (df : List Row) :
    (defector_ratios df).Pairwise (· < ·) := by
  unfold defector_ratios
  have hs := List.sorted_insertionSort (· ≤ ·) ((df.map (fun r => r.defectorRatio)).dedup)
  have hn : (((df.map (fun r => r.defectorRatio)).dedup).insertionSort
      (· ≤ ·)).Nodup :=
    (List.Perm.nodup_iff
        (List.perm_insertionSort (· ≤ ·) ((df.map (fun r => r.defectorRatio)).dedup))).mpr
      (List.nodup_dedup _)
  exact (List.Pairwise.and hs hn).imp fun h => lt_of_le_of_ne h.1 h.2

/-- Claim C10: the `thresholds` list returned by `plot_threshold_curves` has no
`None` second component, strictly ascending first components drawn from the
distinct `defectorRatio` values of the table, and the caller's
`if thresh is not None` filter keeps every element. -/
theorem plot_threshold_curves_invariant (gf : List ℚ → List ℚ) (f : Row → ℚ)
    (df : List Row) (t : ℚ) :
    (∀ p ∈ plot_threshold_curves_thresholds gf f df t, p.2 ≠ none) ∧
    (plot_threshold_curves_thresholds gf f df t).Pairwise (fun a b => a.1 < b.1) ∧
    (∀ p ∈ plot_threshold_curves_thresholds gf f df t,
      p.1 ∈ (df.map (·.defectorRatio)).dedup) ∧
    (plot_threshold_curves_thresholds gf f df t).filter (fun p => !p.2.isNone)
      = plot_threshold_curves_thresholds gf f df t := by
  have hshape : ∀ r (p : ℚ × Option ℚ),
      ((find_threshold gf (curve_x df r) (gf (curve_y f df r)) t).map
        fun thresh => (r, some thresh)) = some p → p.1 = r ∧ ∃ w, p.2 = some w := by
    intro r p hp
    rw [Option.map_eq_some'] at hp
    obtain ⟨w, _, heq⟩ := hp
    obtain ⟨h1, h2⟩ := Prod.ext_iff.mp heq
    exact ⟨h1.symm, w, h2.symm⟩
  have hmemshape : ∀ p ∈ plot_threshold_curves_thresholds gf f df t,
      (p.1 ∈ defector_ratios df) ∧ ∃ w, p.2 = some w := by
    intro p hp
    unfold plot_threshold_curves_thresholds at hp
    rw [List.mem_filterMap] at hp
    obtain ⟨r, hr, hmap⟩ := hp
    obtain ⟨h1, hw⟩ := hshape r p hmap
    exact ⟨h1 ▸ hr, hw⟩
  refine ⟨?_, ?_, ?_, ?_⟩
  · intro p hp
    obtain ⟨-, w, hw⟩ := hmemshape p hp
    simp [hw]
  · unfold plot_threshold_curves_thresholds
    rw [List.pairwise_filterMap]
    refine (defector_ratios_sorted df).imp ?_
    intro a b hab p hp q hq
    have ha := (hshape a p hp).1
    have hb := (hshape b q hq).1
    rw [ha, hb]
    exact hab
  · intro p hp
    obtain ⟨hmem, -⟩ := hmemshape p hp
    exact ((List.perm_insertionSort (· ≤ ·) _).mem_iff).mp hmem
  · rw [List.filter_eq_self]
    intro p hp
    obtain ⟨-, w, hw⟩ := hmemshape p hp
    simp [hw]

/-- Claim C10 witness: concrete instances of the invariant on `dfC3`. -/
theorem plot_threshold_curves_invariant_witness :
    (plot_threshold_curves_thresholds smooth3 (·.avgCompliance) dfC3
        (mkRat 1 2)).Pairwise (fun a b => a.1 < b.1) ∧
    (plot_threshold_curves_thresholds smooth3 (·.avgCompliance) dfC3
        (mkRat 1 2)).filter (fun p => !p.2.isNone)
      = plot_threshold_curves_thresholds smooth3 (·.avgCompliance) dfC3 (mkRat 1 2) :=
  ⟨(plot_threshold_curves_invariant smooth3 (·.avgCompliance) dfC3 (mkRat 1 2)).2.1,
   (plot_threshold_curves_invariant smooth3 (·.avgCompliance) dfC3 (mkRat 1 2)).2.2.2⟩

/-! ### Output paths of `plot_threshold_analysis.py` (claim C7) -/

/-- The three plotting functions of `plot_threshold_analysis.py` that write an
image file. -/
inductive PlotKind where
  | thresholdCurves
  | densityCurves
  | phaseSpace
  deriving DecidableEq

/-- `output_dir = Path("threshold_analysis")` (line 9). -/
def output_dir : String := "threshold_analysis"

/-- The file-name templates at lines 60, 98 and 128 of
`plot_threshold_analysis.py`, as functions of the metric name. -/
def plot_filename : PlotKind → String → String
  | .thresholdCurves, m => "threshold_" ++ m ++ "_T1.7.png"
  | .densityCurves, m => "density_curves_" ++ m ++ "_DR0.5.png"
  | .phaseSpace, m => "phase_space_" ++ m ++ "_DR0.5.png"

/-- The full path written by `plt.savefig(output_dir / filename)`. -/
def plot_path (k : PlotKind) (m : String) : String :=
  output_dir ++ "/" ++ plot_filename k m

def plot_kinds : List PlotKind := [.thresholdCurves, .densityCurves, .phaseSpace]

/-- The `metrics` dictionary of `plot_threshold_analysis.py` (lines 133-138). -/
def metric_pairs : List (String × String) :=
  [("defectorPercolationProb", "Defector Percolation Probability"),
   ("geometricPercolationProb", "Geometric Percolation Probability"),
   ("avgLargestClusterFrac", "Largest Defector Cluster Fraction"),
   ("avgCompliance", "Final Compliance Rate")]

def metric_names : List String := metric_pairs.map (·.1)

/-- Claim C7: every image path of `plot_threshold_analysis.py` lies inside the
fixed directory `threshold_analysis`, the name is a PNG name determined by the
metric name and the fixed parameter values, and no two distinct
(function, metric) combinations share a path. -/
theorem threshold_analysis_paths_spec :
    (∀ k ∈ plot_kinds, ∀ m ∈ metric_names,
      ∃ rest, plot_path k m = "threshold_analysis/" ++ rest) ∧
    (∀ k1 ∈ plot_kinds, ∀ k2 ∈ plot_kinds, ∀ m1 ∈ metric_names, ∀ m2 ∈ metric_names,
      plot_path k1 m1 = plot_path k2 m2 → k1 = k2 ∧ m1 = m2) := by
  constructor
  · intro k _ m _
    exact ⟨plot_filename k m, rfl⟩
  · decide

/-- Claim C7 witness: concrete instances of `threshold_analysis_paths_spec`. -/
theorem threshold_analysis_paths_spec_witness :
    (∃ rest, plot_path PlotKind.thresholdCurves "avgCompliance" =
      "threshold_analysis/" ++ rest) ∧
    (PlotKind.thresholdCurves = PlotKind.thresholdCurves ∧
      "avgCompliance" = "avgCompliance") :=
  ⟨threshold_analysis_paths_spec.1 PlotKind.thresholdCurves (by decide)
      "avgCompliance" (by decide),
   threshold_analysis_paths_spec.2 PlotKind.thresholdCurves (by decide)
      PlotKind.thresholdCurves (by decide) "avgCompliance" (by decide)
      "avgCompliance" (by decide) rfl⟩

/-! ### The pivot of `plot_density_phase_diagram` (claim C5) -/

/-- Model of `plot_density_phase_diagram` (`plot_phase_diagrams.py` lines
14-22): filter the table to `df['temptation'] == t_value`, then pivot with
index `defectorRatio`, columns `density` and values the metric column `f`.
The cell at row `r`, column `d` holds a value exactly when the filtered table
has a matching row (a missing combination is a NaN cell in pandas, modelled
as `none`). -/
def plot_density_phase_diagram_pivot (f : Row → ℚ) (df : List Row) (tval r d : ℚ) :
    Option ℚ :=
  ((df.filter fun row => decide (row.temptation = tval)).find? fun row =>
      decide (row.defectorRatio = r) && decide (row.density = d)).map f

/-- Claim C5: when the (temptation, defectorRatio, density) triples of the
table are unique, the pivot has a cell at row `r`, column `d` with value `v`
if and only if the table has a row with temptation `t_value`, defectorRatio
`r`, density `d` and metric value `v`; rows with another temptation
contribute nothing. -/
theorem plot_density_phase_diagram_pivot_spec (f : Row → ℚ) (df : List Row)
    (tval r d v : ℚ)
    (huniq : ∀ a ∈ df, ∀ b ∈ df, a.temptation = b.temptation →
      a.defectorRatio = b.defectorRatio → a.density = b.density → a = b) :
    plot_density_phase_diagram_pivot f df tval r d = some v ↔
      ∃ row ∈ df, row.temptation = tval ∧ row.defectorRatio = r ∧
        row.density = d ∧ f row = v := by
  unfold plot_density_phase_diagram_pivot
  rw [Option.map_eq_some']
  constructor
  · rintro ⟨row, hfind, rfl⟩
    have hmem := List.mem_of_find?_eq_some hfind
    have hpred := List.find?_some hfind
    rw [List.mem_filter] at hmem
    simp only [Bool.and_eq_true, decide_eq_true_eq] at hpred
    exact ⟨row, hmem.1, by simpa using hmem.2, hpred.1, hpred.2, rfl⟩
  · rintro ⟨row, hrow, htv, hdr, hd, rfl⟩
    have hmf : row ∈ df.filter fun row => decide (row.temptation = tval) := by
      rw [List.mem_filter]
      exact ⟨hrow, by simpa using htv⟩
    have hsome : ((df.filter fun row => decide (row.temptation = tval)).find? fun row =>
        decide (row.defectorRatio = r) && decide (row.density = d)).isSome := by
      rw [List.find?_isSome]
      exact ⟨row, hmf, by simp [hdr, hd]⟩
    rw [Option.isSome_iff_exists] at hsome
    obtain ⟨b, hb⟩ := hsome
    have hbmem := List.mem_of_find?_eq_some hb
    have hbpred := List.find?_some hb
    rw [List.mem_filter] at hbmem
    simp only [Bool.and_eq_true, decide_eq_true_eq] at hbpred
    have hbt : b.temptation = tval := by simpa using hbmem.2
    have hbrow : b = row := by
      refine huniq b hbmem.1 row hrow ?_ ?_ ?_
      · rw [hbt, htv]
      · rw [hbpred.1, hdr]
      · rw [hbpred.2, hd]
    exact ⟨b, hb, by rw [hbrow]⟩

/-- A concrete two-row table with unique parameter triples, used to
instantiate the pivot specification. -/
def dfC5 : List Row :=
  [⟨mkRat 13 10, mkRat 1 2, 1, 0, 0, 0, mkRat 3 10⟩,
   ⟨mkRat 11 10, mkRat 1 2, 1, 0, 0, 0, mkRat 9 10⟩]

/-- Claim C5 witness: a concrete instance of
`plot_density_phase_diagram_pivot_spec`. -/
theorem plot_density_phase_diagram_pivot_spec_witness :
    plot_density_phase_diagram_pivot (fun r => r.avgCompliance) dfC5 (mkRat 13 10)
        (mkRat 1 2) 1 = some (mkRat 3 10) ↔
      ∃ row ∈ dfC5, row.temptation = mkRat 13 10 ∧ row.defectorRatio = mkRat 1 2 ∧
        row.density = 1 ∧ row.avgCompliance = mkRat 3 10 :=
  plot_density_phase_diagram_pivot_spec (fun r => r.avgCompliance) dfC5 (mkRat 13 10)
    (mkRat 1 2) 1 (mkRat 3 10) (by with_unfolding_all decide)

/-! ### Determinism of the `plot_threshold_analysis.py` main loop (claim C6) -/

/-- Model of Python's substring test `sub in s`, via `str.split`. -/
def containsSub (s sub : String) : Bool := decide ((s.splitOn sub).length ≠ 1)

/-- The metric column named by each key of the `metrics` dictionary. -/
def metric_col (m : String) : Row → ℚ :=
  if m = "defectorPercolationProb" then fun r => r.defectorPercolationProb
  else if m = "geometricPercolationProb" then fun r => r.geometricPercolationProb
  else if m = "avgLargestClusterFrac" then fun r => r.avgLargestClusterFrac
  else fun r => r.avgCompliance

/-- Model of `sorted(df['temptation'].unique())` (line 71). -/
def temptation_values (df : List Row) : List ℚ :=
  ((df.map (·.temptation)).dedup).insertionSort (· ≤ ·)

/-- Rows selected by `plot_density_curves` (line 76):
`df[(df['defectorRatio'] == 0.5) & (df['temptation'] == t)]`. -/
def density_curve_rows (df : List Row) (t : ℚ) : List Row :=
  df.filter fun r => decide (r.defectorRatio = mkRat 1 2) && decide (r.temptation = t)

/-- The pivot built by `plot_phase_space` (lines 107-111): rows with
`defectorRatio == 0.5`, index `temptation`, columns `density`. -/
def phase_space_pivot (f : Row → ℚ) (df : List Row) (t d : ℚ) : Option ℚ :=
  ((df.filter fun row => decide (row.defectorRatio = mkRat 1 2)).find? fun row =>
      decide (row.temptation = t) && decide (row.density = d)).map f

/-- The output file names the main loop (lines 141-154) writes, in order: for
each metric the threshold plot only when the title contains `Percolation`,
then the density-curves and phase-space files. -/
def threshold_analysis_filenames : List String :=
  metric_pairs.flatMap fun mt =>
    (if containsSub mt.2 "Percolation" then
      [plot_path PlotKind.thresholdCurves mt.1] else []) ++
    [plot_path PlotKind.densityCurves mt.1, plot_path PlotKind.phaseSpace mt.1]

/-- The data-dependent artifacts of one run of the main loop of
`plot_threshold_analysis.py` over a loaded table: the thresholds lists of the
percolation metrics, the filtered density-curve subsets, the phase-space
pivots, and the output file names. -/
structure RunArtifacts where
  thresholds : List (List (ℚ × Option ℚ))
  densitySubsets : List (List Row)
  phasePivots : List (ℚ → ℚ → Option ℚ)
  filenames : List String

/-- One run of the main loop as a pure function of the loaded table (and of
the external smoothing routine `gf`). -/
def run_threshold_analysis (gf : List ℚ → List ℚ) (df : List Row) : RunArtifacts where
  thresholds :=
    (metric_pairs.filter fun mt => containsSub mt.2 "Percolation").map fun mt =>
      plot_threshold_curves_thresholds gf (metric_col mt.1) df (mkRat 1 2)
  densitySubsets := (temptation_values df).map fun t => density_curve_rows df t
  phasePivots := metric_pairs.map fun mt => phase_space_pivot (metric_col mt.1) df
  filenames := threshold_analysis_filenames

/-! ### The remaining four scripts, for claim C6 -/

/-- The `metrics` dictionary of `plot_improved_visualization.py`
(lines 118-123). -/
def improved_metric_names : List String :=
  ["geometricPercolationProb", "defectorPercolationProb", "avgLargestClusterFrac",
   "avgCompliance"]

/-- The ratio groups of `plot_subplots_by_groups` (lines 22-25). -/
def improved_ratio_groups : List (String × List ℚ) :=
  [("Low", [mkRat 1 10, mkRat 2 10, mkRat 3 10]),
   ("Medium", [mkRat 4 10, mkRat 5 10, mkRat 6 10]),
   ("High", [mkRat 7 10, mkRat 8 10, mkRat 9 10])]

/-- One curve's subset in `plot_subplots_by_groups` (lines 19 and 32):
`data = df[df['temptation'] == 1.7]`, then `data[data['defectorRatio'] == ratio]`. -/
def improved_subset (df : List Row) (ratio : ℚ) : List Row :=
  (df.filter fun r => decide (r.temptation = mkRat 17 10)).filter fun r =>
    decide (r.defectorRatio = ratio)

/-- The heatmap/3D-surface pivot of `plot_improved_visualization.py`
(lines 59-64 and 87-91): rows with `temptation == 1.7`, index
`defectorRatio`, columns `density`. -/
def heatmap_pivot (f : Row → ℚ) (df : List Row) (r d : ℚ) : Option ℚ :=
  ((df.filter fun row => decide (row.temptation = mkRat 17 10)).find? fun row =>
      decide (row.defectorRatio = r) && decide (row.density = d)).map f

/-- The data-dependent artifacts of one run of
`plot_improved_visualization.py`: per metric and ratio the curve subset, its
smoothed values and the vertical-line scan (drawn only for metrics ending in
`Prob`, modelled by `Except.ok none` otherwise), the pivots, and the output
file names. -/
structure ImprovedVizRun where
  curves : List (List Row × List ℚ × Except Unit (Option ℚ))
  heatPivots : List (ℚ → ℚ → Option ℚ)
  filenames : List String

def run_improved_visualization (gf : List ℚ → List ℚ) (df : List Row) :
    ImprovedVizRun where
  curves := improved_metric_names.flatMap fun m =>
    (improved_ratio_groups.flatMap fun g => g.2).map fun ratio =>
      let subset := improved_subset df ratio
      let x := subset.map (·.density)
      let y := subset.map (metric_col m)
      (subset, gf y,
        if m.endsWith "Prob" then subplots_threshold_scan gf x y else Except.ok none)
  heatPivots := improved_metric_names.map fun m => heatmap_pivot (metric_col m) df
  filenames := improved_metric_names.flatMap fun m =>
    ["improved_visualizations/subplots_" ++ m ++ "_T1.7.png",
     "improved_visualizations/heatmap_" ++ m ++ "_T1.7.png",
     "improved_visualizations/surface3d_" ++ m ++ "_T1.7.png"]

/-- A row of the CSV table as loaded by `plot_phase_diagrams.py`, which also
reads the `agentCount` column. -/
structure RowN where
  temptation : ℚ
  defectorRatio : ℚ
  density : ℚ
  agentCount : ℚ
  defectorPercolationProb : ℚ
  geometricPercolationProb : ℚ
  avgLargestClusterFrac : ℚ
  avgCompliance : ℚ
  deriving DecidableEq, Repr

def metric_colN (m : String) : RowN → ℚ :=
  if m = "defectorPercolationProb" then fun r => r.defectorPercolationProb
  else if m = "geometricPercolationProb" then fun r => r.geometricPercolationProb
  else if m = "avgLargestClusterFrac" then fun r => r.avgLargestClusterFrac
  else fun r => r.avgCompliance

/-- The metric keys `plot_phase_diagrams.py` plots, in call order
(lines 59-124). -/
def phase_diagrams_metric_names : List String :=
  ["avgCompliance", "defectorPercolationProb", "avgLargestClusterFrac",
   "geometricPercolationProb"]

/-- The `t` values of the density diagrams (line 59) with their file labels. -/
def phase_diagrams_t_pairs : List (ℚ × String) :=
  [(mkRat 11 10, "1.1"), (mkRat 13 10, "1.3"), (mkRat 3 2, "1.5")]

/-- The `n` values of the temptation diagrams (line 93) with their labels. -/
def phase_diagrams_n_pairs : List (ℚ × String) :=
  [(40, "40"), (60, "60"), (80, "80")]

/-- The pivot of `plot_density_phase_diagram` (lines 16-22) over the loaded
table with its `agentCount` column. -/
def density_phase_pivotN (f : RowN → ℚ) (df : List RowN) (tval r d : ℚ) : Option ℚ :=
  ((df.filter fun row => decide (row.temptation = tval)).find? fun row =>
      decide (row.defectorRatio = r) && decide (row.density = d)).map f

/-- The pivot of `plot_temptation_phase_diagram` (lines 38-44): rows with
`agentCount == n_value`, index `defectorRatio`, columns `temptation`. -/
def temptation_phase_pivotN (f : RowN → ℚ) (df : List RowN) (nval r t : ℚ) : Option ℚ :=
  ((df.filter fun row => decide (row.agentCount = nval)).find? fun row =>
      decide (row.defectorRatio = r) && decide (row.temptation = t)).map f

/-- The data-dependent artifacts of one run of `plot_phase_diagrams.py`. -/
structure PhaseDiagramsRun where
  densityPivots : List (ℚ → ℚ → Option ℚ)
  temptationPivots : List (ℚ → ℚ → Option ℚ)
  filenames : List String

def run_phase_diagrams (df : List RowN) : PhaseDiagramsRun where
  densityPivots := phase_diagrams_t_pairs.flatMap fun tp =>
    phase_diagrams_metric_names.map fun m => density_phase_pivotN (metric_colN m) df tp.1
  temptationPivots := phase_diagrams_n_pairs.flatMap fun nv =>
    phase_diagrams_metric_names.map fun m => temptation_phase_pivotN (metric_colN m) df nv.1
  filenames :=
    (phase_diagrams_t_pairs.flatMap fun tp =>
      phase_diagrams_metric_names.map fun m =>
        "phase_diagrams/phase_density_" ++ m ++ "_T" ++ tp.2 ++ ".png") ++
    (phase_diagrams_n_pairs.flatMap fun nv =>
      phase_diagrams_metric_names.map fun m =>
        "phase_diagrams/phase_temptation_" ++ m ++ "_N" ++ nv.2 ++ ".png")

/-- A row of the JSON results table (`phase_diagram_results.json`), with the
snake_case column names used by `plot_phase_transitions.py` and
`plot_combined_transitions.py`. -/
structure JRow where
  temptation : ℚ
  defector_ratio : ℚ
  density : ℚ
  avg_compliance : ℚ
  defector_percolation_prob : ℚ
  geometric_percolation_prob : ℚ
  avg_largest_cluster_frac : ℚ
  deriving DecidableEq, Repr

def jmetric_col (m : String) : JRow → ℚ :=
  if m = "avg_compliance" then fun r => r.avg_compliance
  else if m = "defector_percolation_prob" then fun r => r.defector_percolation_prob
  else if m = "geometric_percolation_prob" then fun r => r.geometric_percolation_prob
  else fun r => r.avg_largest_cluster_frac

/-- The `metrics` dictionary keys of the two JSON-based scripts. -/
def jmetric_names : List String :=
  ["avg_compliance", "defector_percolation_prob", "geometric_percolation_prob",
   "avg_largest_cluster_frac"]

/-- Model of `sorted(df['temptation'].unique())` over the JSON table
(`plot_phase_transitions.py` line 22). -/
def j_temptations (df : List JRow) : List ℚ :=
  ((df.map (·.temptation)).dedup).insertionSort (· ≤ ·)

/-- The heatmap pivot of the JSON scripts: rows with `temptation == tval`,
index `defector_ratio`, columns `density`. -/
def j_pivot (f : JRow → ℚ) (df : List JRow) (tval r d : ℚ) : Option ℚ :=
  ((df.filter fun row => decide (row.temptation = tval)).find? fun row =>
      decide (row.defector_ratio = r) && decide (row.density = d)).map f

/-- The line-plot slice of the JSON scripts: rows with `temptation == T` and
`abs(density - d) < 0.01`, projected to `(defector_ratio, metric)`. -/
def j_slice (f : JRow → ℚ) (df : List JRow) (T d : ℚ) : List (ℚ × ℚ) :=
  (df.filter fun row => decide (row.temptation = T) &&
      decide (|row.density - d| < mkRat 1 100)).map fun row => (row.defector_ratio, f row)

/-- The `densities = [0.2, 0.5, 0.8]` of both JSON scripts. -/
def j_densities : List ℚ := [mkRat 2 10, mkRat 5 10, mkRat 8 10]

/-- The data-dependent artifacts of one run of `plot_phase_transitions.py`. -/
structure PhaseTransitionsRun where
  heatPivots : List (ℚ → ℚ → Option ℚ)
  slices : List (List (ℚ × ℚ))
  filenames : List String

def run_phase_transitions (df : List JRow) : PhaseTransitionsRun where
  heatPivots := jmetric_names.flatMap fun m =>
    (j_temptations df).map fun T => j_pivot (jmetric_col m) df T
  slices := jmetric_names.flatMap fun m =>
    j_densities.map fun d => j_slice (jmetric_col m) df (mkRat 17 10) d
  filenames := jmetric_names.flatMap fun m =>
    ["phase_transition_plots/phase_diagram_" ++ m ++ ".png",
     "phase_transition_plots/" ++ m ++ "_vs_defector_ratio.png"]

/-- The `T_values = [1.1, 1.7, 2.0]` of `plot_combined_transitions.py`
(line 65), with their file labels. -/
def combined_T_pairs : List (ℚ × String) :=
  [(mkRat 11 10, "1.1"), (mkRat 17 10, "1.7"), (2, "2.0")]

/-- The data-dependent artifacts of one run of `plot_combined_transitions.py`. -/
structure CombinedRun where
  heatPivots : List (ℚ → ℚ → Option ℚ)
  slices : List (List (ℚ × ℚ))
  filenames : List String

def run_combined_transitions (df : List JRow) : CombinedRun where
  heatPivots := jmetric_names.flatMap fun m =>
    combined_T_pairs.map fun Tp => j_pivot (jmetric_col m) df Tp.1
  slices := jmetric_names.flatMap fun m =>
    combined_T_pairs.flatMap fun Tp =>
      j_densities.map fun d => j_slice (jmetric_col m) df Tp.1 d
  filenames := jmetric_names.flatMap fun m =>
    combined_T_pairs.map fun Tp =>
      "combined_phase_plots/combined_" ++ m ++ "_T" ++ Tp.2 ++ ".png"

/-- Claim C6: every script is deterministic in its loaded table — two runs of
any of the five scripts over identical loaded tables produce identical
filtered subsets, pivot tables, threshold lists and output file names. The
smoothing routine `gf` is the same fixed external function in both runs. -/
theorem all_scripts_deterministic (gf : List ℚ → List ℚ)
    (df1 df2 : List Row) (dn1 dn2 : List RowN) (dj1 dj2 : List JRow)
    (hc : df1 = df2) (hn : dn1 = dn2) (hj : dj1 = dj2) :
    run_threshold_analysis gf df1 = run_threshold_analysis gf df2 ∧
    run_improved_visualization gf df1 = run_improved_visualization gf df2 ∧
    run_phase_diagrams dn1 = run_phase_diagrams dn2 ∧
    run_phase_transitions dj1 = run_phase_transitions dj2 ∧
    run_combined_transitions dj1 = run_combined_transitions dj2 := by
  subst hc
  subst hn
  subst hj
  exact ⟨rfl, rfl, rfl, rfl, rfl⟩

/-- A one-row CSV table with the `agentCount` column. -/
def dnW : List RowN :=
  [⟨mkRat 11 10, mkRat 1 2, 1, 40, 0, 0, 0, mkRat 3 10⟩]

/-- A one-row JSON table. -/
def djW : List JRow :=
  [⟨mkRat 17 10, mkRat 1 2, mkRat 2 10, mkRat 3 10, 0, 0, 0⟩]

/-- Claim C6 witness: a concrete instance of `all_scripts_deterministic`. -/
theorem all_scripts_deterministic_witness :
    run_threshold_analysis smooth3 dfC5 = run_threshold_analysis smooth3 dfC5 ∧
    run_improved_visualization smooth3 dfC5 = run_improved_visualization smooth3 dfC5 ∧
    run_phase_diagrams dnW = run_phase_diagrams dnW ∧
    run_phase_transitions djW = run_phase_transitions djW ∧
    run_combined_transitions djW = run_combined_transitions djW :=
  all_scripts_deterministic smooth3 dfC5 dfC5 dnW dnW djW djW rfl rfl rfl

end EpidemicPercolation
